import Mathlib

/-!
Shallow embedding of src/telemetry_comparer.py (class QualifyingComparer),
the telemetry-comparison pipeline of the f1-data-analysis repository.

Python floats are modelled as rationals; pandas DataFrames as lists of
records.  Where a numpy or pandas operation has a relevant convention
(float floor division, groupby sort order, the first-occurrence tie-break
of idxmax, inner merge, sort_values), the embedding follows that
convention and the comment on the definition records it.
-/

/-- One telemetry sample as supplied by the source adapter
(the result of get_telemetry on the fastest lap): the fields the
mini-sector pipeline reads, namely Distance, Speed, X and Y. -/
structure Sample where
  distance : ℚ
  speed : ℚ
  x : ℚ
  y : ℚ
deriving DecidableEq, Repr

/-- A row of a telemetry frame after _merge_telemetries has tagged it with
the owning driver (the Driver column). -/
structure TRow where
  driver : String
  sample : Sample
deriving DecidableEq, Repr

/-- A merged row after process_minisectors has assigned the Minisector
column. -/
structure MRow where
  driver : String
  sample : Sample
  minisector : ℤ
deriving DecidableEq, Repr

/-- A merged row after the fastest-driver frame has been merged back on
Minisector: it additionally carries the Fastest_driver column. -/
structure WRow where
  driver : String
  sample : Sample
  minisector : ℤ
  fastest : String
deriving DecidableEq, Repr

/-- Dataflow view of _merge_telemetries: tag the rows of each telemetry
with the abbreviation of the owning driver and concatenate the two frames
with pd.concat.  The Python code performs no check on either input; in
particular an empty frame is concatenated as-is. -/
def mergeTelemetries (d1 d2 : String) (t1 t2 : List Sample) : List TRow :=
  t1.map (fun s => ⟨d1, s⟩) ++ t2.map (fun s => ⟨d2, s⟩)

/-- A per-driver telemetry DataFrame as stored on the comparer object
(telemetry_driver_1 and telemetry_driver_2): its sample rows plus the
optional Driver column, absent as fetched and present after
_merge_telemetries writes it. -/
structure TelemetryFrame where
  rows : List Sample
  driverCol : Option String
deriving DecidableEq, Repr

/-- In-place column assignment on a stored frame, as done by the line
assigning the Driver column. -/
def setDriverCol (df : TelemetryFrame) (d : String) : TelemetryFrame :=
  ⟨df.rows, some d⟩

/-- The attributes of the comparer object that _merge_telemetries reads or
writes: the two stored per-driver telemetry frames and the private merged
frame. -/
structure PipelineState where
  telemetry1 : TelemetryFrame
  telemetry2 : TelemetryFrame
  merged : Option (List TRow)
deriving DecidableEq, Repr

/-- State view of _merge_telemetries: it assigns the Driver column on both
stored frames, mutating them in place, and then stores the concatenation
in the private merged-telemetry attribute. -/
def mergeStep (d1 d2 : String) (st : PipelineState) : PipelineState :=
  let t1 := setDriverCol st.telemetry1 d1
  let t2 := setDriverCol st.telemetry2 d2
  ⟨t1, t2, some (mergeTelemetries d1 d2 t1.rows t2.rows)⟩

/-- Maximum of the Distance column, total_distance in the source.  The
Python max raises on an empty iterable; the embedding returns 0 there and
every theorem that needs the maximum works on nonempty input. -/
def maxDistance : List TRow → ℚ
  | [] => 0
  | t :: ts => ts.foldl (fun acc u => max acc u.sample.distance) t.sample.distance

/-- Mini-sector id of one row, the lambda applied to the Distance column:
int of (dist // minisector_length) plus 1, where minisector_length is
total_distance / num_minisectors.  Python float floor division is the
floor of the quotient; there is no clamping in the source.  (For a zero
sector count, numpy yields an infinite minisector_length and the floor
quotient 0 for nonnegative distances; the rational convention that
division by zero is 0 gives the same id.) -/
def minisectorOf (total : ℚ) (n : ℤ) (dist : ℚ) : ℤ :=
  ⌊dist / (total / (n : ℚ))⌋ + 1

/-- Assignment of the Minisector column in process_minisectors. -/
def assignMinisectors (n : ℤ) (m : List TRow) : List MRow :=
  let total := maxDistance m
  m.map (fun t => ⟨t.driver, t.sample, minisectorOf total n t.sample.distance⟩)

/-- Rows of one (Minisector, Driver) group. -/
def groupSamples (rows : List MRow) (sec : ℤ) (d : String) : List MRow :=
  rows.filter (fun r => r.minisector = sec && r.driver = d)

/-- Mean of the Speed column over one (Minisector, Driver) group, as
computed by groupby followed by mean. -/
def meanSpeed (rows : List MRow) (sec : ℤ) (d : String) : ℚ :=
  ((groupSamples rows sec d).map (fun r => r.sample.speed)).sum
    / ((groupSamples rows sec d).length : ℚ)

/-- Code-point comparison of two character lists, the order Python uses to
compare strings. -/
def charListLE : List Char → List Char → Bool
  | [], _ => true
  | _ :: _, [] => false
  | c :: cs, d :: ds =>
    if c.toNat < d.toNat then true
    else if d.toNat < c.toNat then false
    else charListLE cs ds

/-- Lexicographic string comparison by code point, the sort key order of
pandas groupby on a string column. -/
def strLE (a b : String) : Bool :=
  charListLE a.data b.data

/-- Drivers present in one mini-sector, in the order pandas groupby with
its default sort setting lists them: ascending by the Driver key. -/
def driversIn (rows : List MRow) (sec : ℤ) : List String :=
  (((rows.filter (fun r => r.minisector = sec)).map (fun r => r.driver)).dedup).insertionSort
    (fun a b => strLE a b = true)

/-- Rows of the average_speed frame lying in one mini-sector, in grouped
order: one record of driver and mean speed per driver present. -/
def groupRows (rows : List MRow) (sec : ℤ) : List (String × ℚ) :=
  (driversIn rows sec).map (fun d => (d, meanSpeed rows sec d))

/-- Scan underlying Series.idxmax: it returns the first element attaining
the maximum value, since a later element replaces the current best only
when strictly greater. -/
def argmaxFold (r : String × ℚ) : List (String × ℚ) → String × ℚ
  | [] => r
  | s :: rs => argmaxFold (if r.2 < s.2 then s else r) rs

/-- Per mini-sector fastest driver, the idxmax selection over the grouped
average_speed frame.  It is none exactly when no row of the frame lies in
the mini-sector. -/
def fastestDriver (rows : List MRow) (sec : ℤ) : Option String :=
  match groupRows rows sec with
  | [] => none
  | r :: rs => some (argmaxFold r rs).1

/-- Inner merge of the telemetry frame with the fastest_driver frame on
Minisector: each telemetry row is joined with the unique fastest-driver
record of its mini-sector.  The mini-sector of every row holds at least
that row, so the join drops nothing. -/
def joinWinners (rows : List MRow) : List WRow :=
  rows.filterMap (fun r =>
    (fastestDriver rows r.minisector).map (fun w => ⟨r.driver, r.sample, r.minisector, w⟩))

/-- Ascending-Distance ordering on joined rows. -/
def distLE (a b : WRow) : Prop :=
  a.sample.distance ≤ b.sample.distance

instance : DecidableRel distLE :=
  fun a b => inferInstanceAs (Decidable (a.sample.distance ≤ b.sample.distance))

instance : IsTotal WRow distLE :=
  ⟨fun a b => le_total a.sample.distance b.sample.distance⟩

instance : IsTrans WRow distLE :=
  ⟨fun _ _ _ h1 h2 => le_trans h1 h2⟩

/-- Sorting of the joined frame by ascending distance, sort_values on the
Distance column. -/
def sortByDistance (rows : List WRow) : List WRow :=
  rows.insertionSort distLE

/-- Encoding to the Fastest_driver_int column: 1 for driver 1, 2 for
driver 2.  The 0 branch models the NaN a row matching neither driver would
keep, which cannot arise from the tags the pipeline itself writes. -/
def driverCode (d1 d2 w : String) : ℤ :=
  if w = d1 then 1 else if w = d2 then 2 else 0

/-- One line segment of the track map, as assembled for the
LineCollection: two endpoints and the color-index annotation taken from
Fastest_driver_int. -/
structure LineSeg where
  p1 : ℚ × ℚ
  p2 : ℚ × ℚ
  code : ℤ
deriving DecidableEq, Repr

/-- Geometry builder: points are the X and Y columns paired in row order,
and the segments concatenate points dropping the last with points dropping
the first, so segment i joins point i to point i+1.  The set_array call
colors segment i by the code of row i, its start point. -/
def buildSegments (d1 d2 : String) (rows : List WRow) : List LineSeg :=
  (rows.zip rows.tail).map (fun pr =>
    ⟨(pr.1.sample.x, pr.1.sample.y), (pr.2.sample.x, pr.2.sample.y),
      driverCode d1 d2 pr.1.fastest⟩)

/-- The function _identify_team_colors: the first color is the team color
of the team of driver 1; the second is the team color of the team of
driver 2 when the teams differ, and the fixed fallback string of light
gray when they coincide.  The external lookup plotting.team_color is
abstracted as the parameter teamColor. -/
def identifyTeamColors (teamColor : String → String) (team1 team2 : String) :
    String × String :=
  (teamColor team1, if team1 ≠ team2 then teamColor team2 else "#D3D3D3")

/-- Concrete lap of driver A from the spec scenario: distances 0, 100,
200, 300, 400, all at speed 100, with placeholder coordinates. -/
def exLapA : List Sample :=
  [⟨0, 100, 0, 0⟩, ⟨100, 100, 1, 1⟩, ⟨200, 100, 2, 2⟩, ⟨300, 100, 3, 3⟩, ⟨400, 100, 4, 4⟩]

/-- Concrete lap of driver B from the spec scenario: distances 0, 120,
240, 360, 480, all at speed 120. -/
def exLapB : List Sample :=
  [⟨0, 120, 0, 0⟩, ⟨120, 120, 1, 1⟩, ⟨240, 120, 2, 2⟩, ⟨360, 120, 3, 3⟩, ⟨480, 120, 4, 4⟩]

/-- The merged tagged frame of the two concrete laps. -/
def exMerged : List TRow :=
  mergeTelemetries "A" "B" exLapA exLapB

/-- The mini-sector assignment of the concrete merged frame at sector
count 2: total distance 480, sector length 240, and the boundary sample at
distance 480 receives id 3. -/
def exRows : List MRow :=
  [⟨"A", ⟨0, 100, 0, 0⟩, 1⟩, ⟨"A", ⟨100, 100, 1, 1⟩, 1⟩, ⟨"A", ⟨200, 100, 2, 2⟩, 1⟩,
   ⟨"A", ⟨300, 100, 3, 3⟩, 2⟩, ⟨"A", ⟨400, 100, 4, 4⟩, 2⟩,
   ⟨"B", ⟨0, 120, 0, 0⟩, 1⟩, ⟨"B", ⟨120, 120, 1, 1⟩, 1⟩, ⟨"B", ⟨240, 120, 2, 2⟩, 2⟩,
   ⟨"B", ⟨360, 120, 3, 3⟩, 2⟩, ⟨"B", ⟨480, 120, 4, 4⟩, 3⟩]

/-- The mini-sector assignment of the concrete merged frame at sector
count 0: the divisor degenerates and every sample receives id 1. -/
def exRows0 : List MRow :=
  [⟨"A", ⟨0, 100, 0, 0⟩, 1⟩, ⟨"A", ⟨100, 100, 1, 1⟩, 1⟩, ⟨"A", ⟨200, 100, 2, 2⟩, 1⟩,
   ⟨"A", ⟨300, 100, 3, 3⟩, 1⟩, ⟨"A", ⟨400, 100, 4, 4⟩, 1⟩,
   ⟨"B", ⟨0, 120, 0, 0⟩, 1⟩, ⟨"B", ⟨120, 120, 1, 1⟩, 1⟩, ⟨"B", ⟨240, 120, 2, 2⟩, 1⟩,
   ⟨"B", ⟨360, 120, 3, 3⟩, 1⟩, ⟨"B", ⟨480, 120, 4, 4⟩, 1⟩]

/-- Concrete lap used for the tie scenario: distances 0, 100, 200, 300,
400, all at speed 100. -/
def tieLap : List Sample :=
  [⟨0, 100, 0, 0⟩, ⟨100, 100, 1, 1⟩, ⟨200, 100, 2, 2⟩, ⟨300, 100, 3, 3⟩, ⟨400, 100, 4, 4⟩]

/-- Merged frame of two drivers with identical laps, so every sector mean
ties. -/
def tieMerged : List TRow :=
  mergeTelemetries "A" "B" tieLap tieLap

/-- Sample used by the empty-lap merge counterexample. -/
def exSample : Sample :=
  ⟨0, 120, 5, 7⟩

/-- A pipeline state as it stands right after _load_session: both stored
telemetry frames still lack the Driver column and nothing is merged. -/
def freshState : PipelineState :=
  ⟨⟨[⟨0, 100, 1, 2⟩, ⟨50, 110, 3, 4⟩], none⟩, ⟨[⟨0, 120, 5, 6⟩, ⟨60, 115, 7, 8⟩], none⟩, none⟩

/-- Two concrete winner-tagged rows feeding the geometry builder in the
witness of the geometry claim. -/
def wexRows : List WRow :=
  [⟨"A", ⟨0, 100, 10, 20⟩, 1, "B"⟩, ⟨"B", ⟨30, 120, 11, 21⟩, 1, "B"⟩, ⟨"A", ⟨60, 100, 12, 22⟩, 2, "A"⟩]

/-- The mini-sector assignment of the tie scenario at sector count 2:
total distance 400 and sector length 200. -/
def tieRows : List MRow :=
  [⟨"A", ⟨0, 100, 0, 0⟩, 1⟩, ⟨"A", ⟨100, 100, 1, 1⟩, 1⟩, ⟨"A", ⟨200, 100, 2, 2⟩, 2⟩,
   ⟨"A", ⟨300, 100, 3, 3⟩, 2⟩, ⟨"A", ⟨400, 100, 4, 4⟩, 3⟩,
   ⟨"B", ⟨0, 100, 0, 0⟩, 1⟩, ⟨"B", ⟨100, 100, 1, 1⟩, 1⟩, ⟨"B", ⟨200, 100, 2, 2⟩, 2⟩,
   ⟨"B", ⟨300, 100, 3, 3⟩, 2⟩, ⟨"B", ⟨400, 100, 4, 4⟩, 3⟩]

/-- Evaluation of the mini-sector assignment on the concrete merged frame
at sector count 2. -/
theorem assign_two_eval : assignMinisectors 2 exMerged = exRows := by
  simp [assignMinisectors, exMerged, mergeTelemetries, exLapA, exLapB, maxDistance,
    minisectorOf, exRows]
  norm_num

/-- Evaluation of the mini-sector assignment on the concrete merged frame
at sector count 0. -/
theorem assign_zero_eval : assignMinisectors 0 exMerged = exRows0 := by
  simp [assignMinisectors, exMerged, mergeTelemetries, exLapA, exLapB, maxDistance,
    minisectorOf, exRows0]

/-- Evaluation of the mini-sector assignment on the tie scenario. -/
theorem assign_tie_eval : assignMinisectors 2 tieMerged = tieRows := by
  simp [assignMinisectors, tieMerged, mergeTelemetries, tieLap, maxDistance,
    minisectorOf, tieRows]
  norm_num

/-- Grouped average-speed rows of sector 1 in the tie scenario: the two
means coincide. -/
theorem groupRows_tie : groupRows tieRows 1 = [("A", 100), ("B", 100)] := by
  have h : driversIn tieRows 1 = ["A", "B"] := by decide
  rw [groupRows, h]
  simp [meanSpeed, groupSamples, tieRows]

/-- Mean speed of driver A in sector 1 of the degenerate zero-sector
frame. -/
theorem mean_exRows0_A : meanSpeed exRows0 1 "A" = 100 := by
  simp [meanSpeed, groupSamples, exRows0]
  norm_num

/-- Mean speed of driver B in sector 1 of the degenerate zero-sector
frame. -/
theorem mean_exRows0_B : meanSpeed exRows0 1 "B" = 120 := by
  simp [meanSpeed, groupSamples, exRows0]
  norm_num

/-- Grouped average-speed rows of sector 1 of the degenerate zero-sector
frame. -/
theorem groupRows_exRows0 : groupRows exRows0 1 = [("A", 100), ("B", 120)] := by
  have h : driversIn exRows0 1 = ["A", "B"] := by decide
  rw [groupRows, h]
  simp [mean_exRows0_A, mean_exRows0_B]

/-- The idxmax scan returns an element of the scanned list. -/
theorem argmaxFold_mem (r : String × ℚ) (rs : List (String × ℚ)) :
    argmaxFold r rs ∈ r :: rs := by
  induction rs generalizing r with
  | nil => simp [argmaxFold]
  | cons s rs ih =>
    rw [argmaxFold]
    by_cases hc : r.2 < s.2
    · rw [if_pos hc]
      exact List.mem_cons_of_mem r (ih s)
    · rw [if_neg hc]
      rcases List.mem_cons.mp (ih r) with h | h
      · rw [h]; exact List.mem_cons_self _ _
      · exact List.mem_cons_of_mem r (List.mem_cons_of_mem s h)

/-- The value picked by the idxmax scan dominates every scanned value. -/
theorem argmaxFold_le (r : String × ℚ) (rs : List (String × ℚ)) :
    ∀ x ∈ r :: rs, x.2 ≤ (argmaxFold r rs).2 := by
  induction rs generalizing r with
  | nil =>
    intro x hx
    rcases List.mem_cons.mp hx with h | h
    · exact le_of_eq (congrArg Prod.snd h)
    · cases h
  | cons s rs ih =>
    intro x hx
    rw [argmaxFold]
    have hhead : (if r.2 < s.2 then s else r).2 ≤ (argmaxFold (if r.2 < s.2 then s else r) rs).2 :=
      ih _ _ (List.mem_cons_self _ _)
    have hr : r.2 ≤ (if r.2 < s.2 then s else r).2 := by
      by_cases hc : r.2 < s.2
      · rw [if_pos hc]; exact le_of_lt hc
      · rw [if_neg hc]
    have hs : s.2 ≤ (if r.2 < s.2 then s else r).2 := by
      by_cases hc : r.2 < s.2
      · rw [if_pos hc]
      · rw [if_neg hc]; exact le_of_not_lt hc
    rcases List.mem_cons.mp hx with h | h
    · exact le_trans (le_of_eq (congrArg Prod.snd h)) (le_trans hr hhead)
    · rcases List.mem_cons.mp h with h2 | h2
      · exact le_trans (le_of_eq (congrArg Prod.snd h2)) (le_trans hs hhead)
      · exact ih _ _ (List.mem_cons.mpr (Or.inr h2))

/-- The seed of the running-maximum fold bounds the fold from below. -/
theorem le_foldl_max (ts : List TRow) (init : ℚ) :
    init ≤ ts.foldl (fun acc u => max acc u.sample.distance) init := by
  induction ts generalizing init with
  | nil => simp
  | cons t ts ih => exact le_trans (le_max_left _ _) (ih _)

/-- Every scanned distance bounds the running-maximum fold from below. -/
theorem mem_le_foldl_max (ts : List TRow) (init : ℚ) :
    ∀ u ∈ ts, u.sample.distance ≤ ts.foldl (fun acc u => max acc u.sample.distance) init := by
  induction ts generalizing init with
  | nil => intro u hu; cases hu
  | cons t ts ih =>
    intro u hu
    rcases List.mem_cons.mp hu with h | h
    · rw [h]
      exact le_trans (le_max_right _ _) (le_foldl_max ts _)
    · exact ih _ u h

/-- Every distance in the merged frame is at most the total distance. -/
theorem le_maxDistance (m : List TRow) : ∀ t ∈ m, t.sample.distance ≤ maxDistance m := by
  intro t ht
  cases m with
  | nil => cases ht
  | cons h ts =>
    rw [maxDistance]
    rcases List.mem_cons.mp ht with he | he
    · rw [he]
      exact le_foldl_max ts _
    · exact mem_le_foldl_max ts _ t he

/-- Range of the unclamped mini-sector id for an in-range distance: it lies
in the interval from 1 to n + 1, one more than the sector count. -/
theorem minisectorOf_bounds (total : ℚ) (n : ℤ) (d : ℚ) (hn : 0 < n) (htot : 0 < total)
    (hd0 : 0 ≤ d) (hdt : d ≤ total) :
    1 ≤ minisectorOf total n d ∧ minisectorOf total n d ≤ n + 1 := by
  have hnq : (0 : ℚ) < (n : ℚ) := by exact_mod_cast hn
  have hL : (0 : ℚ) < total / (n : ℚ) := div_pos htot hnq
  have h1 : (0 : ℚ) ≤ d / (total / (n : ℚ)) := div_nonneg hd0 hL.le
  have h2 : d / (total / (n : ℚ)) ≤ (n : ℚ) := by
    rw [div_le_iff₀ hL, mul_comm, div_mul_cancel₀ total hnq.ne']
    exact hdt
  constructor
  · have := Int.floor_nonneg.mpr h1
    unfold minisectorOf
    omega
  · have hf : ⌊d / (total / (n : ℚ))⌋ ≤ n := by
      have := Int.floor_le_floor h2
      rwa [Int.floor_intCast] at this
    unfold minisectorOf
    omega

/-- At the boundary distance equal to the total, the unclamped mini-sector
id overflows to n + 1. -/
theorem minisectorOf_at_total (total : ℚ) (n : ℤ) (hn : 0 < n) (htot : 0 < total) :
    minisectorOf total n total = n + 1 := by
  have hnq : (0 : ℚ) < (n : ℚ) := by exact_mod_cast hn
  have hq : total / (total / (n : ℚ)) = (n : ℚ) := by
    rw [div_div_eq_mul_div, mul_comm, mul_div_assoc, div_self htot.ne', mul_one]
  unfold minisectorOf
  rw [hq, Int.floor_intCast]

/-- C1 is false as stated: on the spec scenario itself (laps with
distances 0..400 and 0..480, sector count 2) the source applies no clamp,
so the boundary sample at distance 480, the maximum distance, is assigned
mini-sector 3, outside the range from 1 to 2 and different from 2. -/
theorem c1_counterexample :
    ¬ (∀ r ∈ assignMinisectors 2 exMerged,
        (1 ≤ r.minisector ∧ r.minisector ≤ 2) ∧
        (r.sample.distance = maxDistance exMerged → r.minisector = 2)) := by
  intro h
  have hm : (⟨"B", ⟨480, 120, 4, 4⟩, 3⟩ : MRow) ∈ assignMinisectors 2 exMerged := by
    rw [assign_two_eval]
    decide
  have h3 := (h _ hm).1.2
  norm_num at h3

/-- C1 (amended): for every positive segment count and nonempty merged
sequence with nonnegative distances and positive total distance, the
Segmenter assigns each sample the unclamped id, the floor of distance over
segment length plus 1; every id lies in the range from 1 to N + 1, and a
sample whose distance equals the total distance is assigned exactly N + 1,
not N. -/
theorem c1_segment_id_range_unclamped (m : List TRow) (n : ℤ) (hn : 0 < n)
    (htot : 0 < maxDistance m) (hnn : ∀ t ∈ m, 0 ≤ t.sample.distance) :
    ∀ r ∈ assignMinisectors n m,
      1 ≤ r.minisector ∧ r.minisector ≤ n + 1 ∧
      (r.sample.distance = maxDistance m → r.minisector = n + 1) := by
  intro r hr
  rw [assignMinisectors] at hr
  simp only [List.mem_map] at hr
  obtain ⟨t, ht, rfl⟩ := hr
  have hb := minisectorOf_bounds (maxDistance m) n t.sample.distance hn htot
    (hnn t ht) (le_maxDistance m t ht)
  refine ⟨hb.1, hb.2, ?_⟩
  intro he
  show minisectorOf (maxDistance m) n t.sample.distance = n + 1
  rw [he]
  exact minisectorOf_at_total _ n hn htot

/-- Witness for C1 (amended) at the concrete merged frame and sector
count 2. -/
theorem c1_segment_id_range_unclamped_witness :
    (0 : ℤ) < 2 ∧ (0 : ℚ) < maxDistance exMerged ∧
    (∀ t ∈ exMerged, 0 ≤ t.sample.distance) ∧
    ∀ r ∈ assignMinisectors 2 exMerged,
      1 ≤ r.minisector ∧ r.minisector ≤ 2 + 1 ∧
      (r.sample.distance = maxDistance exMerged → r.minisector = 2 + 1) :=
  ⟨by decide, by rw [show maxDistance exMerged = 480 from rfl]; norm_num, by decide,
   c1_segment_id_range_unclamped exMerged 2 (by decide)
     (by rw [show maxDistance exMerged = 480 from rfl]; norm_num) (by decide)⟩

/-- C2: for every sector count, merged sequence and mini-sector, the
selected fastest driver exists whenever some driver is present, is one of
the drivers present, its mean speed dominates the mean speed of every
driver present, and whenever one driver strictly dominates all others that
driver is selected. -/
theorem c2_segment_winner_max_mean (m : List TRow) (n sec : ℤ) (d : String)
    (hd : d ∈ driversIn (assignMinisectors n m) sec) :
    ∃ w, fastestDriver (assignMinisectors n m) sec = some w ∧
      w ∈ driversIn (assignMinisectors n m) sec ∧
      (∀ d2 ∈ driversIn (assignMinisectors n m) sec,
        meanSpeed (assignMinisectors n m) sec d2 ≤ meanSpeed (assignMinisectors n m) sec w) ∧
      ((∀ d2 ∈ driversIn (assignMinisectors n m) sec, d2 ≠ d →
          meanSpeed (assignMinisectors n m) sec d2 < meanSpeed (assignMinisectors n m) sec d) →
        w = d) := by
  set rows := assignMinisectors n m with hrows
  cases hg : groupRows rows sec with
  | nil =>
    exfalso
    have hmm : (d, meanSpeed rows sec d) ∈ groupRows rows sec := by
      rw [groupRows]
      exact List.mem_map_of_mem _ hd
    rw [hg] at hmm
    cases hmm
  | cons r rs =>
    have hfd : fastestDriver rows sec = some (argmaxFold r rs).1 := by
      rw [fastestDriver, hg]
    have hmem : argmaxFold r rs ∈ groupRows rows sec := by
      rw [hg]
      exact argmaxFold_mem r rs
    rw [groupRows] at hmem
    obtain ⟨w, hw, hweq⟩ := List.mem_map.mp hmem
    have hsnd : (argmaxFold r rs).2 = meanSpeed rows sec w := by
      rw [← hweq]
    have hfst : (argmaxFold r rs).1 = w := by
      rw [← hweq]
    have hmax : ∀ d2 ∈ driversIn rows sec,
        meanSpeed rows sec d2 ≤ meanSpeed rows sec w := by
      intro d2 hd2
      have h2 : (d2, meanSpeed rows sec d2) ∈ groupRows rows sec := by
        rw [groupRows]
        exact List.mem_map_of_mem _ hd2
      rw [hg] at h2
      have hle := argmaxFold_le r rs _ h2
      rw [hsnd] at hle
      exact hle
    refine ⟨w, ?_, hw, hmax, ?_⟩
    · rw [hfd, hfst]
    · intro hstrict
      by_contra hne
      have hlt := hstrict w hw hne
      exact lt_irrefl _ (lt_of_lt_of_le hlt (hmax d hd))

/-- Witness for C2 at the concrete merged frame, sector count 2,
mini-sector 1 and driver A. -/
theorem c2_segment_winner_max_mean_witness :
    ("A" ∈ driversIn (assignMinisectors 2 exMerged) 1) ∧
    (∃ w, fastestDriver (assignMinisectors 2 exMerged) 1 = some w ∧
      w ∈ driversIn (assignMinisectors 2 exMerged) 1 ∧
      (∀ d2 ∈ driversIn (assignMinisectors 2 exMerged) 1,
        meanSpeed (assignMinisectors 2 exMerged) 1 d2
          ≤ meanSpeed (assignMinisectors 2 exMerged) 1 w) ∧
      ((∀ d2 ∈ driversIn (assignMinisectors 2 exMerged) 1, d2 ≠ "A" →
          meanSpeed (assignMinisectors 2 exMerged) 1 d2
            < meanSpeed (assignMinisectors 2 exMerged) 1 "A") →
        w = "A")) :=
  ⟨by rw [assign_two_eval]; decide,
   c2_segment_winner_max_mean exMerged 2 1 "A" (by rw [assign_two_eval]; decide)⟩

/-- C3: for every pair of input laps, the merged output projects back to
the exact concatenation of the two sample lists in order, with no drop,
reorder, deduplication or interpolation; the driver tags are positionally
the first abbreviation on the first block and the second on the second;
and the output length is the sum of the input lengths. -/
theorem c3_merger_concatenation (d1 d2 : String) (t1 t2 : List Sample) :
    (mergeTelemetries d1 d2 t1 t2).map (fun r => r.sample) = t1 ++ t2 ∧
    (mergeTelemetries d1 d2 t1 t2).map (fun r => r.driver)
      = List.replicate t1.length d1 ++ List.replicate t2.length d2 ∧
    (mergeTelemetries d1 d2 t1 t2).length = t1.length + t2.length := by
  refine ⟨?_, ?_, ?_⟩
  · simp [mergeTelemetries, List.map_map, Function.comp_def]
  · simp [mergeTelemetries, List.map_map, Function.comp_def, List.map_const']
  · simp [mergeTelemetries]

/-- C4 is false as stated: with the first lap empty, the Merger raises
nothing and returns a complete non-empty merged output, the tagged second
lap. -/
theorem c4_counterexample :
    mergeTelemetries "LEC" "VER" [] [exSample] = [⟨"VER", exSample⟩] ∧
    (mergeTelemetries "LEC" "VER" [] [exSample]).length = 1 :=
  ⟨rfl, rfl⟩

/-- C4 (amended): the Merger performs no emptiness check and signals no
error; with either lap empty it simply returns the other lap tagged with
its driver. -/
theorem c4_empty_lap_no_failure (d1 d2 : String) (t1 t2 : List Sample) :
    mergeTelemetries d1 d2 [] t2 = t2.map (fun s => ⟨d2, s⟩) ∧
    mergeTelemetries d1 d2 t1 [] = t1.map (fun s => ⟨d1, s⟩) := by
  constructor <;> simp [mergeTelemetries]

/-- C5 is false as stated: at sector count 0 the Segmenter raises no
ConfigurationError; the degenerate division makes every sample land in
mini-sector 1 and the aggregation proceeds to a normal winner, driver B. -/
theorem c5_counterexample :
    (assignMinisectors 0 exMerged).map (fun r => r.minisector) = List.replicate 10 1 ∧
    fastestDriver (assignMinisectors 0 exMerged) 1 = some "B" := by
  constructor
  · rw [assign_zero_eval]
    decide
  · rw [assign_zero_eval, fastestDriver, groupRows_exRows0]
    norm_num [argmaxFold]

/-- C5 (amended): the Segmenter validates nothing; at sector count 0, for
any merged input with nonnegative distances, every sample is assigned
mini-sector 1 and processing continues with no error.  (In numpy the
sector length becomes infinite and the floor quotient is 0; the rational
division-by-zero convention yields the same id.) -/
theorem c5_zero_sectors_no_error (m : List TRow)
    (_hnn : ∀ t ∈ m, 0 ≤ t.sample.distance) :
    (assignMinisectors 0 m).map (fun r => r.minisector) = List.replicate m.length 1 := by
  rw [assignMinisectors, List.map_map]
  rw [List.eq_replicate_iff]
  constructor
  · simp
  · intro b hb
    simp only [List.mem_map, Function.comp] at hb
    obtain ⟨t, ht, rfl⟩ := hb
    show minisectorOf (maxDistance m) 0 t.sample.distance = 1
    simp [minisectorOf]

/-- Witness for C5 (amended) at the concrete merged frame. -/
theorem c5_zero_sectors_no_error_witness :
    (∀ t ∈ exMerged, 0 ≤ t.sample.distance) ∧
    (assignMinisectors 0 exMerged).map (fun r => r.minisector)
      = List.replicate exMerged.length 1 :=
  ⟨by decide, c5_zero_sectors_no_error exMerged (by decide)⟩

/-- C6: the Geometry Builder yields exactly one segment fewer than its
input rows, returns the empty sequence on inputs of length 0 or 1, and its
segment at index i joins the coordinates of row i to those of row i + 1
and carries the winner code of row i, its start point. -/
theorem c6_geometry_builder (d1 d2 : String) (rows : List WRow) :
    (buildSegments d1 d2 rows).length = rows.length - 1 ∧
    (rows.length ≤ 1 → buildSegments d1 d2 rows = []) ∧
    (∀ i : ℕ, i + 1 < rows.length →
      ∃ a b, rows[i]? = some a ∧ rows[i + 1]? = some b ∧
        (buildSegments d1 d2 rows)[i]? =
          some ⟨(a.sample.x, a.sample.y), (b.sample.x, b.sample.y),
            driverCode d1 d2 a.fastest⟩) := by
  refine ⟨?_, ?_, ?_⟩
  · simp [buildSegments]
  · intro hle
    cases rows with
    | nil => rfl
    | cons a tl =>
      cases tl with
      | nil => rfl
      | cons b tl2 => simp at hle
  · intro i hi
    have hi1 : i < rows.length := by omega
    have ha : rows[i]? = some (rows.get ⟨i, hi1⟩) := List.getElem?_eq_getElem hi1
    have hb : rows[i + 1]? = some (rows.get ⟨i + 1, hi⟩) := List.getElem?_eq_getElem hi
    refine ⟨rows.get ⟨i, hi1⟩, rows.get ⟨i + 1, hi⟩, ha, hb, ?_⟩
    rw [buildSegments, List.getElem?_map]
    have hz : (rows.zip rows.tail)[i]? = some (rows.get ⟨i, hi1⟩, rows.get ⟨i + 1, hi⟩) := by
      rw [List.getElem?_zip_eq_some]
      exact ⟨ha, by rw [List.getElem?_tail]; exact hb⟩
    rw [hz]
    rfl

/-- Witness for C6 at a concrete three-row input and index 0. -/
theorem c6_geometry_builder_witness :
    ((0 : ℕ) + 1 < wexRows.length) ∧
    (∃ a b, wexRows[0]? = some a ∧ wexRows[0 + 1]? = some b ∧
      (buildSegments "A" "B" wexRows)[0]? =
        some ⟨(a.sample.x, a.sample.y), (b.sample.x, b.sample.y),
          driverCode "A" "B" a.fastest⟩) :=
  ⟨by decide, (c6_geometry_builder "A" "B" wexRows).2.2 0 (by decide)⟩

/-- C7: for every merged input and sector count, the full sample sequence
produced after the winner join and the final sort, the sequence handed to
the Geometry Builder, is sorted by ascending distance. -/
theorem c7_sorted_by_distance (m : List TRow) (n : ℤ) :
    List.Sorted distLE (sortByDistance (joinWinners (assignMinisectors n m))) :=
  List.sorted_insertionSort distLE _

/-- C8: winner selection is a pure function of the merged input and sector
count, so re-running it yields identical winners; in particular on an
exact tie between the two grouped drivers the scan underlying idxmax keeps
the first driver in the grouped ordering, which is therefore the stable,
deterministic tie-break the source relies on. -/
theorem c8_deterministic_tie_break (m : List TRow) (n sec : ℤ) (r1 r2 : String × ℚ)
    (h : groupRows (assignMinisectors n m) sec = [r1, r2]) (htie : r1.2 = r2.2) :
    fastestDriver (assignMinisectors n m) sec = some r1.1 := by
  rw [fastestDriver, h]
  simp only [argmaxFold]
  rw [if_neg (by rw [htie]; exact lt_irrefl _)]

/-- Witness for C8 at the tie scenario: both drivers average 100 in
mini-sector 1 and driver A, first in grouped order, is selected. -/
theorem c8_deterministic_tie_break_witness :
    (groupRows (assignMinisectors 2 tieMerged) 1 = [("A", 100), ("B", 100)] ∧
      (("A", (100 : ℚ)).2 = (("B", (100 : ℚ))).2)) ∧
    fastestDriver (assignMinisectors 2 tieMerged) 1 = some "A" :=
  ⟨⟨by rw [assign_tie_eval]; exact groupRows_tie, rfl⟩,
   c8_deterministic_tie_break tieMerged 2 1 ("A", 100) ("B", 100)
     (by rw [assign_tie_eval]; exact groupRows_tie) rfl⟩

/-- C9: when both drivers share a team and the external team-color lookup
does not itself return the fallback light gray, the resolver gives the
second driver exactly the fallback color, which differs from the first
color, the shared team color. -/
theorem c9_shared_team_fallback (teamColor : String → String) (team1 team2 : String)
    (hsame : team1 = team2) (hfb : teamColor team1 ≠ "#D3D3D3") :
    (identifyTeamColors teamColor team1 team2).2 = "#D3D3D3" ∧
    (identifyTeamColors teamColor team1 team2).1
      ≠ (identifyTeamColors teamColor team1 team2).2 := by
  subst hsame
  refine ⟨by simp [identifyTeamColors], ?_⟩
  simp [identifyTeamColors]
  exact hfb

/-- Witness for C9 at a concrete shared team and lookup. -/
theorem c9_shared_team_fallback_witness :
    ("Ferrari" = "Ferrari") ∧
    ((fun _ : String => "#FF0000") "Ferrari" ≠ "#D3D3D3") ∧
    (identifyTeamColors (fun _ => "#FF0000") "Ferrari" "Ferrari").2 = "#D3D3D3" ∧
    (identifyTeamColors (fun _ => "#FF0000") "Ferrari" "Ferrari").1
      ≠ (identifyTeamColors (fun _ => "#FF0000") "Ferrari" "Ferrari").2 :=
  ⟨rfl, by decide,
   (c9_shared_team_fallback (fun _ => "#FF0000") "Ferrari" "Ferrari" rfl (by decide)).1,
   (c9_shared_team_fallback (fun _ => "#FF0000") "Ferrari" "Ferrari" rfl (by decide)).2⟩

/-- C10 is false as stated: starting from a freshly loaded state whose
stored telemetry frames carry no Driver column, running the merge step
changes both stored frames, so the fetched laps are not left unchanged. -/
theorem c10_counterexample :
    (mergeStep "LEC" "VER" freshState).telemetry1 ≠ freshState.telemetry1 ∧
    (mergeStep "LEC" "VER" freshState).telemetry2 ≠ freshState.telemetry2 := by
  constructor <;> (intro h; simp [mergeStep, setDriverCol, freshState] at h)

/-- C10 (amended): the merge step mutates the two stored telemetry frames
in place by setting their Driver column, while preserving their sample
rows unchanged, and stores the tagged concatenation as the merged frame;
thus the derived merged sequence is new, but the source frames are not
left unmodified. -/
theorem c10_merge_mutates_frames (d1 d2 : String) (st : PipelineState) :
    (mergeStep d1 d2 st).telemetry1.rows = st.telemetry1.rows ∧
    (mergeStep d1 d2 st).telemetry1.driverCol = some d1 ∧
    (mergeStep d1 d2 st).telemetry2.rows = st.telemetry2.rows ∧
    (mergeStep d1 d2 st).telemetry2.driverCol = some d2 ∧
    (mergeStep d1 d2 st).merged
      = some (mergeTelemetries d1 d2 st.telemetry1.rows st.telemetry2.rows) :=
  ⟨rfl, rfl, rfl, rfl, rfl⟩
